import Mathlib

/-!
Shallow embedding of the ski-resort telemetry data generator
(`src/data-generator/data_generator/generator.py`, `models.py`, and the
lift lookup endpoint of `main.py`).

Python floats are modelled as rationals (`ℚ`), Python ints as `ℤ`, and
`datetime` timestamps abstractly as `ℕ` tick times.  Every random draw the
code makes (`random.uniform`, `random.randint`, `random.random`,
`random.choice`) is supplied by an explicit oracle structure, so each
update function is a pure function of the previous state and the oracle;
theorems quantify over all oracles.  Drift magnitudes and probabilities
come from `config.json` (loaded by `_load_config`, out of scope here) and
are modelled as an abstract `Config` record.
-/

/-- Python `max(lo, min(hi, x))`, the clamping idiom used throughout
`generator.py`. -/
def clamp (lo hi x : ℚ) : ℚ := max lo (min hi x)

/-- Round-half-even on rationals: the rounding of the Python built-in
`round` applied to exactly representable values. -/
def roundHalfEven (x : ℚ) : ℤ :=
  let f := ⌊x⌋
  let r := x - (f : ℚ)
  if r < 1/2 then f
  else if 1/2 < r then f + 1
  else if f % 2 = 0 then f else f + 1

/-- Python `round(x, 1)`: round to one decimal place. -/
def round1 (x : ℚ) : ℚ := ((roundHalfEven (10 * x) : ℤ) : ℚ) / 10

/-- Lift operational status (`LiftData.status` in `models.py`):
`Literal["open", "closed", "maintenance"]`. -/
inductive LiftStatus where
  | open_
  | closed
  | maintenance
deriving DecidableEq

/-- Slope difficulty (`SlopeData.difficulty` in `models.py`):
`Literal["green", "blue", "red", "black"]`. -/
inductive Difficulty where
  | green
  | blue
  | red
  | black
deriving DecidableEq

/-- Incident type (`IncidentReport.incident_type` in `models.py`). -/
inductive IncidentType where
  | minor_injury
  | collision
  | lost_person
  | equipment_failure
  | avalanche_warning
deriving DecidableEq

/-- Incident severity (`IncidentReport.severity` in `models.py`). -/
inductive Severity where
  | low
  | medium
  | high
  | critical
deriving DecidableEq

/-- Model `WeatherData` from `models.py`. -/
structure WeatherData where
  temperature : ℚ
  wind_speed : ℚ
  snow_intensity : ℚ
  visibility : ℚ
  timestamp : ℕ
deriving DecidableEq

/-- Model `LiftData` from `models.py`. -/
structure LiftData where
  lift_id : String
  name : String
  status : LiftStatus
  queue_length : ℤ
  wait_time_minutes : ℚ
  throughput_rate : ℤ
  timestamp : ℕ
deriving DecidableEq

/-- Model `IncidentReport` from `models.py`. -/
structure IncidentReport where
  incident_type : IncidentType
  location : String
  severity : Severity
  timestamp : ℕ
deriving DecidableEq

/-- Model `SafetyData` from `models.py`. -/
structure SafetyData where
  avalanche_risk_index : ℚ
  incident_reports : List IncidentReport
  timestamp : ℕ
deriving DecidableEq

/-- Model `SlopeData` from `models.py`.  Note: unlike the other entity models it
declares no `timestamp` field. -/
structure SlopeData where
  slope_id : String
  name : String
  difficulty : Difficulty
  is_open : Bool
  groomed : Bool
  snow_depth_cm : ℚ
deriving DecidableEq

/-- The declared field names of `WeatherData` in `models.py`. -/
def weatherDataFields : List String :=
  ["temperature", "wind_speed", "snow_intensity", "visibility", "timestamp"]

/-- The declared field names of `LiftData` in `models.py`. -/
def liftDataFields : List String :=
  ["lift_id", "name", "status", "queue_length", "wait_time_minutes",
   "throughput_rate", "timestamp"]

/-- The declared field names of `SafetyData` in `models.py`. -/
def safetyDataFields : List String :=
  ["avalanche_risk_index", "incident_reports", "timestamp"]

/-- The declared field names of `SlopeData` in `models.py`. -/
def slopeDataFields : List String :=
  ["slope_id", "name", "difficulty", "is_open", "groomed", "snow_depth_cm"]

/-- Mutable generator state: the fields of `DataGenerator` in
`generator.py` (`current_time`, `weather`, `lifts`, `safety`, `slopes`,
`_incident_history`). -/
structure GenState where
  current_time : ℕ
  weather : WeatherData
  lifts : List LiftData
  safety : SafetyData
  slopes : List SlopeData
  incident_history : List IncidentReport
deriving DecidableEq

/-- The drift magnitudes and probabilities read from `config.json`
(`self.config["weather"]`, `["lifts"]`, `["safety"]`, `["slopes"]`). -/
structure Config where
  temperature_drift : ℚ
  wind_speed_drift : ℚ
  snow_intensity_drift : ℚ
  visibility_drift : ℚ
  queue_drift : ℤ
  status_change_probability : ℚ
  risk_drift : ℚ
  incident_probability : ℚ
  depth_drift : ℚ
  reopen_probability : ℚ
  groom_probability : ℚ
  ungroom_probability : ℚ

/-- The random draws `_update_weather` makes, one `random.uniform(-d, d)`
value per field. -/
structure WeatherOracle where
  temp_delta : ℚ
  wind_delta : ℚ
  snow_delta : ℚ
  vis_delta : ℚ

/-- The random draws `_update_lifts` makes for one lift:
`random.randint(-d, d)`, the `random.random()` status roll, and the
`random.choice(["closed", "maintenance"])` pick (`true` = `"closed"`). -/
structure LiftOracle where
  queue_delta : ℤ
  status_roll : ℚ
  to_closed : Bool

/-- The index draws `_generate_incident` makes: each `random.choice(l)`
is modelled as picking the element at `idx % l.length`. -/
structure IncidentOracle where
  type_idx : ℕ
  severity_idx : ℕ
  location_idx : ℕ

/-- The random draws `_update_safety` makes: the risk drift, the
`random.random()` incident roll, and the draws for the incident itself. -/
structure SafetyOracle where
  risk_delta : ℚ
  incident_roll : ℚ
  incident : IncidentOracle

/-- The random draws `_update_slopes` makes for one slope. -/
structure SlopeOracle where
  depth_delta : ℚ
  reopen_roll : ℚ
  groom_roll : ℚ
  ungroom_roll : ℚ

/-- All random draws of one `update()` tick, plus the tick timestamp from
`datetime.now()`.  Per-lift and per-slope draws are indexed by
position in the respective list. -/
structure TickOracle where
  now : ℕ
  weather : WeatherOracle
  lifts : ℕ → LiftOracle
  safety : SafetyOracle
  slopes : ℕ → SlopeOracle

/-- Python `random.choice(l)` with the oracle index `i`: the element at
`i % l.length` (`d` is returned only for `l = []`, where the Python call
would raise). -/
def choice {α : Type} (l : List α) (d : α) (i : ℕ) : α :=
  l.getD (i % l.length) d

/-- Method `DataGenerator._update_weather` (`generator.py` lines 137-164).
Each field gets its drift added and is clamped to its domain; visibility
additionally loses `d*2` when the (just-updated) snow intensity exceeds 2
and `d*1.5` when the (just-updated) wind speed exceeds 40. -/
def update_weather (cfg : Config) (o : WeatherOracle) (now : ℕ)
    (w : WeatherData) : WeatherData :=
  let temperature := clamp (-15) 5 (w.temperature + o.temp_delta)
  let wind_speed := clamp 0 80 (w.wind_speed + o.wind_delta)
  let snow_intensity := clamp 0 5 (w.snow_intensity + o.snow_delta)
  let d := cfg.visibility_drift
  let vis_delta := o.vis_delta
  let vis_delta := if snow_intensity > 2 then vis_delta - d * 2 else vis_delta
  let vis_delta := if wind_speed > 40 then vis_delta - d * (3/2) else vis_delta
  let visibility := clamp 50 10000 (w.visibility + vis_delta)
  { temperature := temperature
    wind_speed := wind_speed
    snow_intensity := snow_intensity
    visibility := visibility
    timestamp := now }

/-- The per-lift body of `DataGenerator._update_lifts` (`generator.py`
lines 169-186): integer queue drift clamped to [0,200], probabilistic
status toggle, unconditional recomputation of `wait_time_minutes`, and
timestamping. -/
def update_lift (cfg : Config) (o : LiftOracle) (now : ℕ)
    (l : LiftData) : LiftData :=
  let queue_length := max 0 (min 200 (l.queue_length + o.queue_delta))
  let status :=
    if o.status_roll < cfg.status_change_probability then
      (if l.status = .open_ then
        (if o.to_closed then LiftStatus.closed else .maintenance)
      else .open_)
    else l.status
  let wait_time_minutes :=
    if status = .open_ ∧ l.throughput_rate > 0 then
      round1 (((queue_length : ℚ) / (l.throughput_rate : ℚ)) * 60)
    else 0
  { l with
    queue_length := queue_length
    status := status
    wait_time_minutes := wait_time_minutes
    timestamp := now }

/-- The loop of `DataGenerator._update_lifts`, the oracle indexed by
position starting at `k`. -/
def updateLifts (cfg : Config) (f : ℕ → LiftOracle) (now : ℕ) :
    ℕ → List LiftData → List LiftData
  | _, [] => []
  | k, l :: rest =>
      update_lift cfg (f k) now l :: updateLifts cfg f now (k + 1) rest

/-- Method `DataGenerator._generate_incident` (`generator.py` lines 211-242),
with the candidate-type pool split out.  The pool is the four baseline
types, plus `avalanche_warning` appended twice when the avalanche risk
read at generation time exceeds 0.7. -/
def incident_pool (risk : ℚ) : List IncidentType :=
  let base : List IncidentType :=
    [.minor_injury, .collision, .lost_person, .equipment_failure]
  if risk > 7/10 then base ++ [.avalanche_warning, .avalanche_warning]
  else base

/-- The `severity_map` of `_generate_incident`. -/
def severity_map : IncidentType → List Severity
  | .minor_injury => [.low, .medium]
  | .collision => [.low, .medium, .high]
  | .lost_person => [.medium, .high]
  | .equipment_failure => [.low, .medium, .high]
  | .avalanche_warning => [.high, .critical]

/-- Method `DataGenerator._generate_incident`: type from the weighted pool,
severity from the per-type set, location uniformly from the flat pool of
slope and lift display names. -/
def generate_incident (risk : ℚ) (slopes : List SlopeData)
    (lifts : List LiftData) (o : IncidentOracle) (now : ℕ) :
    IncidentReport :=
  let incident_type := choice (incident_pool risk) .minor_injury o.type_idx
  let severity := choice (severity_map incident_type) .low o.severity_idx
  let locations := slopes.map SlopeData.name ++ lifts.map LiftData.name
  let location := choice locations "" o.location_idx
  { incident_type := incident_type, location := location,
    severity := severity, timestamp := now }

/-- Python `history[-20:]`: keep only the last 20 entries
(`generator.py` line 206). -/
def truncate20 (l : List IncidentReport) : List IncidentReport :=
  l.drop (l.length - 20)

/-- Method `DataGenerator._update_safety` (`generator.py` lines 188-209).
Returns the new `SafetyData` together with the new incident history.
The weather passed in is the one already updated this tick; the risk used
by incident generation is the freshly clamped one. -/
def update_safety (cfg : Config) (o : SafetyOracle) (now : ℕ)
    (w : WeatherData) (slopes : List SlopeData) (lifts : List LiftData)
    (s : SafetyData) (hist : List IncidentReport) :
    SafetyData × List IncidentReport :=
  let d := cfg.risk_drift
  let risk_delta := o.risk_delta
  let risk_delta := if w.wind_speed > 50 then risk_delta + d * (1/2) else risk_delta
  let risk_delta := if w.snow_intensity > 3 then risk_delta + d * (1/2) else risk_delta
  let risk := clamp 0 1 (s.avalanche_risk_index + risk_delta)
  let hist :=
    if o.incident_roll < cfg.incident_probability then
      truncate20 (hist ++ [generate_incident risk slopes lifts o.incident now])
    else hist
  ({ avalanche_risk_index := risk, incident_reports := hist,
     timestamp := now }, hist)

/-- The per-slope body of `DataGenerator._update_slopes` (`generator.py`
lines 247-270): snow-depth drift with accumulation, forced closures,
guarded reopen, and grooming.  `w` and `risk` are the weather and
avalanche risk already updated this tick. -/
def update_slope (cfg : Config) (o : SlopeOracle) (w : WeatherData)
    (risk : ℚ) (s : SlopeData) : SlopeData :=
  let depth_delta := o.depth_delta
  let depth_delta :=
    if w.snow_intensity > 1 then depth_delta + w.snow_intensity * (1/10)
    else depth_delta
  let snow_depth_cm := round1 (max 0 (s.snow_depth_cm + depth_delta))
  let is_open := s.is_open
  let is_open :=
    if s.difficulty = .black ∧ risk > 4/5 then false else is_open
  let is_open :=
    if (s.difficulty = .black ∨ s.difficulty = .red) ∧ w.wind_speed > 60 then
      false
    else is_open
  let is_open :=
    if is_open = false ∧ o.reopen_roll < cfg.reopen_probability then
      (if ¬(s.difficulty = .black ∧ risk > 4/5) then
        (if ¬((s.difficulty = .black ∨ s.difficulty = .red) ∧ w.wind_speed > 60) then
          true
        else is_open)
      else is_open)
    else is_open
  let groomed :=
    if (s.difficulty = .green ∨ s.difficulty = .blue) ∧
        o.groom_roll < cfg.groom_probability then
      true
    else if s.groomed ∧ o.ungroom_roll < cfg.ungroom_probability then
      false
    else s.groomed
  { s with
    snow_depth_cm := snow_depth_cm
    is_open := is_open
    groomed := groomed }

/-- The loop of `DataGenerator._update_slopes`, the oracle indexed by
position starting at `k`. -/
def updateSlopes (cfg : Config) (f : ℕ → SlopeOracle) (w : WeatherData)
    (risk : ℚ) : ℕ → List SlopeData → List SlopeData
  | _, [] => []
  | k, s :: rest =>
      update_slope cfg (f k) w risk s :: updateSlopes cfg f w risk (k + 1) rest

/-- Method `DataGenerator.update` (`generator.py` lines 118-135): one tick, in
the fixed order weather, lifts, safety, slopes.  Safety reads the updated
weather; incident locations read the not-yet-updated slopes and the
already-updated lifts; slopes read the updated weather and safety. -/
def update (cfg : Config) (o : TickOracle) (g : GenState) : GenState :=
  let now := o.now
  let weather := update_weather cfg o.weather now g.weather
  let lifts := updateLifts cfg o.lifts now 0 g.lifts
  let sh := update_safety cfg o.safety now weather g.slopes lifts
    g.safety g.incident_history
  let slopes := updateSlopes cfg o.slopes weather sh.1.avalanche_risk_index
    0 g.slopes
  { current_time := now, weather := weather, lifts := lifts,
    safety := sh.1, slopes := slopes, incident_history := sh.2 }

/-- A sequence of `update()` calls. -/
def runTicks (cfg : Config) (os : List TickOracle) (g : GenState) :
    GenState :=
  os.foldl (fun s o => update cfg o s) g

/-- Handler `get_lift` from `main.py` (lines 180-190): linear search by
`lift_id`; `HTTPException(status_code=404)` when no lift matches. -/
inductive ApiError where
  | notFound
deriving DecidableEq

/-- The `/api/lifts/{lift_id}` handler body (`main.py` lines 180-190). -/
def get_lift (lifts : List LiftData) (lift_id : String) :
    Except ApiError LiftData :=
  match lifts.find? (fun l => l.lift_id == lift_id) with
  | some l => .ok l
  | none => .error .notFound

/-- Bounded-field domains for the weather record (`models.py` field
descriptions and the clamps in `_update_weather`). -/
def WeatherData.InDomain (w : WeatherData) : Prop :=
  -15 ≤ w.temperature ∧ w.temperature ≤ 5 ∧
  0 ≤ w.wind_speed ∧ w.wind_speed ≤ 80 ∧
  0 ≤ w.snow_intensity ∧ w.snow_intensity ≤ 5 ∧
  50 ≤ w.visibility ∧ w.visibility ≤ 10000

instance (w : WeatherData) : Decidable w.InDomain := by
  unfold WeatherData.InDomain
  infer_instance

/-- All bounded numeric fields of the generator state are in their stated
domains: temperature in [-15,5], wind in [0,80], snow intensity in [0,5],
visibility in [50,10000], each queue in [0,200], avalanche risk in [0,1],
each snow depth nonnegative. -/
def GenState.InDomain (g : GenState) : Prop :=
  g.weather.InDomain ∧
  (∀ l ∈ g.lifts, 0 ≤ l.queue_length ∧ l.queue_length ≤ 200) ∧
  (0 ≤ g.safety.avalanche_risk_index ∧ g.safety.avalanche_risk_index ≤ 1) ∧
  (∀ s ∈ g.slopes, 0 ≤ s.snow_depth_cm)

instance (g : GenState) : Decidable g.InDomain := by
  unfold GenState.InDomain
  infer_instance

/-- A concrete configuration: no drift except a unit visibility and risk
drift, all probabilities zero. -/
def cfg0 : Config := ⟨0, 0, 0, 1, 0, 0, 1, 0, 0, 0, 0, 0⟩

def wo0 : WeatherOracle := ⟨0, 0, 0, 0⟩

def lo0 : LiftOracle := ⟨0, 1, false⟩

def io0 : IncidentOracle := ⟨0, 0, 0⟩

def so0 : SafetyOracle := ⟨0, 1, io0⟩

def slo0 : SlopeOracle := ⟨0, 1, 1, 1⟩

def o0 : TickOracle := ⟨1, wo0, fun _ => lo0, so0, fun _ => slo0⟩

def w0 : WeatherData := ⟨0, 10, 0, 5000, 0⟩

/-- Weather matching the spec scenario: snow intensity 2.5, wind 45. -/
def w1 : WeatherData := ⟨0, 45, 5/2, 5000, 0⟩

def lift0 : LiftData := ⟨"gondola-1", "Summit Gondola", .open_, 80, 2, 2400, 0⟩

def slope0 : SlopeData := ⟨"summit-chute", "Summit Chute", .black, true, false, 130⟩

def slopeG : SlopeData := ⟨"valley-run", "Valley Run", .green, true, true, 85⟩

def safety0 : SafetyData := ⟨9/10, [], 0⟩

def g0 : GenState := ⟨0, w0, [lift0], safety0, [slope0, slopeG], []⟩

/-- The black slope of `g0` as updated by the tick `o0`. -/
def slope0' : SlopeData :=
  update_slope cfg0 slo0 (update_weather cfg0 o0.weather o0.now g0.weather)
    ((update cfg0 o0 g0).safety.avalanche_risk_index) slope0

theorem choice_mem {α : Type} (l : List α) (d : α) (i : ℕ) (h : l ≠ []) :
    choice l d i ∈ l := by
  unfold choice
  have hlen : 0 < l.length := List.length_pos.mpr h
  have hm : i % l.length < l.length := Nat.mod_lt _ hlen
  rw [List.getD_eq_getElem?_getD, List.getElem?_eq_getElem hm]
  exact List.getElem_mem _

theorem le_clamp (lo hi x : ℚ) : lo ≤ clamp lo hi x := le_max_left _ _

theorem clamp_le (lo hi x : ℚ) (h : lo ≤ hi) : clamp lo hi x ≤ hi :=
  max_le h (min_le_left _ _)

theorem roundHalfEven_nonneg (x : ℚ) (h : 0 ≤ x) : 0 ≤ roundHalfEven x := by
  have hf : (0 : ℤ) ≤ ⌊x⌋ := Int.floor_nonneg.mpr h
  unfold roundHalfEven
  dsimp only
  split
  · exact hf
  · split
    · omega
    · split
      · exact hf
      · omega

theorem round1_nonneg (x : ℚ) (h : 0 ≤ x) : 0 ≤ round1 x := by
  unfold round1
  have := roundHalfEven_nonneg x h
  have h10 : 0 ≤ roundHalfEven (10 * x) :=
    roundHalfEven_nonneg (10 * x) (by positivity)
  positivity

theorem updateLifts_mem (cfg : Config) (f : ℕ → LiftOracle) (now : ℕ) :
    ∀ (k : ℕ) (ls : List LiftData) (l : LiftData),
      l ∈ updateLifts cfg f now k ls →
      ∃ (i : ℕ) (l₀ : LiftData), l₀ ∈ ls ∧ l = update_lift cfg (f i) now l₀ := by
  intro k ls
  induction ls generalizing k with
  | nil => intro l hl; simp [updateLifts] at hl
  | cons x rest ih =>
      intro l hl
      rw [updateLifts] at hl
      rcases List.mem_cons.mp hl with h | h
      · exact ⟨k, x, List.mem_cons_self _ _, h⟩
      · obtain ⟨i, l₀, hmem, heq⟩ := ih (k + 1) l h
        exact ⟨i, l₀, List.mem_cons_of_mem _ hmem, heq⟩

theorem updateSlopes_mem (cfg : Config) (f : ℕ → SlopeOracle)
    (w : WeatherData) (risk : ℚ) :
    ∀ (k : ℕ) (ls : List SlopeData) (s : SlopeData),
      s ∈ updateSlopes cfg f w risk k ls →
      ∃ (i : ℕ) (s₀ : SlopeData), s₀ ∈ ls ∧
        s = update_slope cfg (f i) w risk s₀ := by
  intro k ls
  induction ls generalizing k with
  | nil => intro s hs; simp [updateSlopes] at hs
  | cons x rest ih =>
      intro s hs
      rw [updateSlopes] at hs
      rcases List.mem_cons.mp hs with h | h
      · exact ⟨k, x, List.mem_cons_self _ _, h⟩
      · obtain ⟨i, s₀, hmem, heq⟩ := ih (k + 1) s h
        exact ⟨i, s₀, List.mem_cons_of_mem _ hmem, heq⟩

theorem updateSlopes_get (cfg : Config) (f : ℕ → SlopeOracle)
    (w : WeatherData) (risk : ℚ) :
    ∀ (ls : List SlopeData) (k i : ℕ),
      (updateSlopes cfg f w risk k ls).get? i =
        (ls.get? i).map (fun s => update_slope cfg (f (k + i)) w risk s) := by
  intro ls
  induction ls with
  | nil => intro k i; simp [updateSlopes]
  | cons x rest ih =>
      intro k i
      cases i with
      | zero => simp [updateSlopes]
      | succ j =>
          rw [updateSlopes]
          simp only [List.get?_cons_succ]
          rw [ih (k + 1) j]
          have h : k + 1 + j = k + (j + 1) := by omega
          rw [h]

theorem truncate20_length_le (l : List IncidentReport) :
    (truncate20 l).length ≤ 20 := by
  unfold truncate20
  rw [List.length_drop]
  omega

theorem truncate20_length (l : List IncidentReport) :
    (truncate20 l).length = min l.length 20 := by
  unfold truncate20
  rw [List.length_drop]
  omega

theorem truncate20_suffix (l : List IncidentReport) :
    List.IsSuffix (truncate20 l) l := List.drop_suffix _ _

theorem update_weather_timestamp (cfg : Config) (o : WeatherOracle)
    (now : ℕ) (w : WeatherData) :
    (update_weather cfg o now w).timestamp = now := rfl

theorem update_weather_temperature (cfg : Config) (o : WeatherOracle)
    (now : ℕ) (w : WeatherData) :
    (update_weather cfg o now w).temperature =
      clamp (-15) 5 (w.temperature + o.temp_delta) := rfl

theorem update_weather_wind (cfg : Config) (o : WeatherOracle)
    (now : ℕ) (w : WeatherData) :
    (update_weather cfg o now w).wind_speed =
      clamp 0 80 (w.wind_speed + o.wind_delta) := rfl

theorem update_weather_snow (cfg : Config) (o : WeatherOracle)
    (now : ℕ) (w : WeatherData) :
    (update_weather cfg o now w).snow_intensity =
      clamp 0 5 (w.snow_intensity + o.snow_delta) := rfl

theorem update_weather_visibility_eq (cfg : Config) (o : WeatherOracle)
    (now : ℕ) (w : WeatherData) :
    (update_weather cfg o now w).visibility =
      clamp 50 10000 (w.visibility +
        (if clamp 0 80 (w.wind_speed + o.wind_delta) > 40 then
          (if clamp 0 5 (w.snow_intensity + o.snow_delta) > 2 then
            o.vis_delta - cfg.visibility_drift * 2
          else o.vis_delta) - cfg.visibility_drift * (3/2)
        else
          (if clamp 0 5 (w.snow_intensity + o.snow_delta) > 2 then
            o.vis_delta - cfg.visibility_drift * 2
          else o.vis_delta))) := rfl

theorem update_lift_queue (cfg : Config) (o : LiftOracle) (now : ℕ)
    (l : LiftData) :
    (update_lift cfg o now l).queue_length =
      max 0 (min 200 (l.queue_length + o.queue_delta)) := rfl

theorem update_lift_throughput (cfg : Config) (o : LiftOracle) (now : ℕ)
    (l : LiftData) :
    (update_lift cfg o now l).throughput_rate = l.throughput_rate := rfl

theorem update_lift_timestamp (cfg : Config) (o : LiftOracle) (now : ℕ)
    (l : LiftData) :
    (update_lift cfg o now l).timestamp = now := rfl

theorem update_lift_wait_eq (cfg : Config) (o : LiftOracle) (now : ℕ)
    (l : LiftData) :
    (update_lift cfg o now l).wait_time_minutes =
      if (update_lift cfg o now l).status = .open_ ∧ l.throughput_rate > 0 then
        round1 ((((update_lift cfg o now l).queue_length : ℚ) /
          (l.throughput_rate : ℚ)) * 60)
      else 0 := rfl

theorem update_slope_difficulty (cfg : Config) (o : SlopeOracle)
    (w : WeatherData) (risk : ℚ) (s : SlopeData) :
    (update_slope cfg o w risk s).difficulty = s.difficulty := rfl

theorem update_slope_depth_nonneg (cfg : Config) (o : SlopeOracle)
    (w : WeatherData) (risk : ℚ) (s : SlopeData) :
    0 ≤ (update_slope cfg o w risk s).snow_depth_cm := by
  have h : (update_slope cfg o w risk s).snow_depth_cm =
      round1 (max 0 (s.snow_depth_cm +
        (if w.snow_intensity > 1 then
          o.depth_delta + w.snow_intensity * (1/10)
        else o.depth_delta))) := rfl
  rw [h]
  exact round1_nonneg _ (le_max_left _ _)

theorem update_slope_closed_of_black_risk (cfg : Config) (o : SlopeOracle)
    (w : WeatherData) (risk : ℚ) (s : SlopeData)
    (hb : s.difficulty = .black) (hr : risk > 4/5) :
    (update_slope cfg o w risk s).is_open = false := by
  simp [update_slope, hb, hr]

theorem update_slope_closed_of_wind (cfg : Config) (o : SlopeOracle)
    (w : WeatherData) (risk : ℚ) (s : SlopeData)
    (hd : s.difficulty = .black ∨ s.difficulty = .red)
    (hw : w.wind_speed > 60) :
    (update_slope cfg o w risk s).is_open = false := by
  rcases hd with hb | hr
  · by_cases hrisk : risk > 4/5
    · simp [update_slope, hb, hw, hrisk]
    · simp [update_slope, hb, hw, hrisk]
  · simp [update_slope, hr, hw]

theorem update_slope_green_blue_open (cfg : Config) (o : SlopeOracle)
    (w : WeatherData) (risk : ℚ) (s : SlopeData)
    (hd : s.difficulty = .green ∨ s.difficulty = .blue)
    (ho : s.is_open = true) :
    (update_slope cfg o w risk s).is_open = true := by
  rcases hd with hg | hb
  · simp [update_slope, hg, ho]
  · simp [update_slope, hb, ho]

theorem update_weather_proj (cfg : Config) (o : TickOracle) (g : GenState) :
    (update cfg o g).weather = update_weather cfg o.weather o.now g.weather :=
  rfl

theorem update_lifts_proj (cfg : Config) (o : TickOracle) (g : GenState) :
    (update cfg o g).lifts = updateLifts cfg o.lifts o.now 0 g.lifts := rfl

theorem update_safety_proj (cfg : Config) (o : TickOracle) (g : GenState) :
    (update cfg o g).safety =
      (update_safety cfg o.safety o.now
        (update_weather cfg o.weather o.now g.weather) g.slopes
        (updateLifts cfg o.lifts o.now 0 g.lifts)
        g.safety g.incident_history).1 := rfl

theorem update_slopes_proj (cfg : Config) (o : TickOracle) (g : GenState) :
    (update cfg o g).slopes =
      updateSlopes cfg o.slopes
        (update_weather cfg o.weather o.now g.weather)
        ((update cfg o g).safety.avalanche_risk_index) 0 g.slopes := rfl

theorem update_history_proj (cfg : Config) (o : TickOracle) (g : GenState) :
    (update cfg o g).incident_history =
      (update_safety cfg o.safety o.now
        (update_weather cfg o.weather o.now g.weather) g.slopes
        (updateLifts cfg o.lifts o.now 0 g.lifts)
        g.safety g.incident_history).2 := rfl

theorem update_safety_risk_eq (cfg : Config) (o : SafetyOracle) (now : ℕ)
    (w : WeatherData) (slopes : List SlopeData) (lifts : List LiftData)
    (s : SafetyData) (hist : List IncidentReport) :
    (update_safety cfg o now w slopes lifts s hist).1.avalanche_risk_index =
      clamp 0 1 (s.avalanche_risk_index + o.risk_delta
        + (if w.wind_speed > 50 then cfg.risk_drift * (1/2) else 0)
        + (if w.snow_intensity > 3 then cfg.risk_drift * (1/2) else 0)) := by
  by_cases h1 : w.wind_speed > 50 <;> by_cases h2 : w.snow_intensity > 3 <;>
    simp [update_safety, h1, h2] <;> (congr 1; ring)

theorem update_safety_timestamp (cfg : Config) (o : SafetyOracle) (now : ℕ)
    (w : WeatherData) (slopes : List SlopeData) (lifts : List LiftData)
    (s : SafetyData) (hist : List IncidentReport) :
    (update_safety cfg o now w slopes lifts s hist).1.timestamp = now := rfl

theorem update_safety_hist_eq (cfg : Config) (o : SafetyOracle) (now : ℕ)
    (w : WeatherData) (slopes : List SlopeData) (lifts : List LiftData)
    (s : SafetyData) (hist : List IncidentReport) :
    (update_safety cfg o now w slopes lifts s hist).2 =
      if o.incident_roll < cfg.incident_probability then
        truncate20 (hist ++
          [generate_incident
            ((update_safety cfg o now w slopes lifts s hist).1.avalanche_risk_index)
            slopes lifts o.incident now])
      else hist := rfl

theorem update_safety_reports_eq (cfg : Config) (o : SafetyOracle) (now : ℕ)
    (w : WeatherData) (slopes : List SlopeData) (lifts : List LiftData)
    (s : SafetyData) (hist : List IncidentReport) :
    (update_safety cfg o now w slopes lifts s hist).1.incident_reports =
      (update_safety cfg o now w slopes lifts s hist).2 := rfl

/-- C1: starting from a state whose bounded fields are in-domain, after
`update()` every bounded numeric field is again within its stated domain
(temperature in [-15,5], wind_speed in [0,80], snow_intensity in [0,5],
visibility in [50,10000], queue_length in [0,200], avalanche_risk_index
in [0,1], snow_depth_cm nonnegative): out-of-range intermediate values
are clamped, never rejected. -/
theorem update_preserves_domains (cfg : Config) (o : TickOracle)
    (g : GenState) (_hg : g.InDomain) : (update cfg o g).InDomain := by
  refine ⟨⟨?_, ?_, ?_, ?_, ?_, ?_, ?_, ?_⟩, ?_, ⟨?_, ?_⟩, ?_⟩
  · rw [update_weather_proj, update_weather_temperature]
    exact le_clamp _ _ _
  · rw [update_weather_proj, update_weather_temperature]
    exact clamp_le _ _ _ (by norm_num)
  · rw [update_weather_proj, update_weather_wind]
    exact le_clamp _ _ _
  · rw [update_weather_proj, update_weather_wind]
    exact clamp_le _ _ _ (by norm_num)
  · rw [update_weather_proj, update_weather_snow]
    exact le_clamp _ _ _
  · rw [update_weather_proj, update_weather_snow]
    exact clamp_le _ _ _ (by norm_num)
  · rw [update_weather_proj, update_weather_visibility_eq]
    exact le_clamp _ _ _
  · rw [update_weather_proj, update_weather_visibility_eq]
    exact clamp_le _ _ _ (by norm_num)
  · intro l hl
    rw [update_lifts_proj] at hl
    obtain ⟨i, l₀, _, rfl⟩ := updateLifts_mem cfg o.lifts o.now 0 g.lifts l hl
    rw [update_lift_queue]
    constructor
    · exact le_max_left _ _
    · exact max_le (by norm_num) (min_le_left _ _)
  · rw [update_safety_proj, update_safety_risk_eq]
    exact le_clamp _ _ _
  · rw [update_safety_proj, update_safety_risk_eq]
    exact clamp_le _ _ _ (by norm_num)
  · intro s hs
    rw [update_slopes_proj] at hs
    obtain ⟨i, s₀, _, rfl⟩ := updateSlopes_mem cfg o.slopes _ _ 0 g.slopes s hs
    exact update_slope_depth_nonneg _ _ _ _ _

/-- C2: after every `update()`, the `wait_time_minutes` of every lift equals
`round((queue_length / throughput_rate) * 60, 1)` when its status is open
and its throughput is positive, and `0` otherwise — recomputed from the
current fields on every tick.  In particular a lift left with
`throughput_rate = 2400`, `queue_length = 80` and open status shows
`wait_time_minutes = 2.0`. -/
theorem wait_time_recomputed (cfg : Config) (o : TickOracle) (g : GenState) :
    ∀ l ∈ (update cfg o g).lifts,
      (l.status = .open_ ∧ l.throughput_rate > 0 →
        l.wait_time_minutes =
          round1 (((l.queue_length : ℚ) / (l.throughput_rate : ℚ)) * 60)) ∧
      (¬(l.status = .open_ ∧ l.throughput_rate > 0) →
        l.wait_time_minutes = 0) ∧
      (l.status = .open_ ∧ l.throughput_rate = 2400 ∧ l.queue_length = 80 →
        l.wait_time_minutes = 2) := by
  intro l hl
  rw [update_lifts_proj] at hl
  obtain ⟨i, l₀, _, rfl⟩ := updateLifts_mem cfg o.lifts o.now 0 g.lifts l hl
  have hw := update_lift_wait_eq cfg (o.lifts i) o.now l₀
  have ht := update_lift_throughput cfg (o.lifts i) o.now l₀
  have hgen : (update_lift cfg (o.lifts i) o.now l₀).status = .open_ ∧
      (update_lift cfg (o.lifts i) o.now l₀).throughput_rate > 0 →
      (update_lift cfg (o.lifts i) o.now l₀).wait_time_minutes =
        round1 ((((update_lift cfg (o.lifts i) o.now l₀).queue_length : ℚ) /
          (((update_lift cfg (o.lifts i) o.now l₀).throughput_rate : ℚ))) * 60) := by
    rintro ⟨hs, hpos⟩
    rw [hw, if_pos ⟨hs, ht ▸ hpos⟩, ht]
  refine ⟨hgen, ?_, ?_⟩
  · intro hn
    rw [hw, if_neg]
    intro hc
    exact hn ⟨hc.1, ht ▸ hc.2⟩
  · rintro ⟨hs, hthr, hq⟩
    have h2 := hgen ⟨hs, by rw [hthr]; norm_num⟩
    rw [h2, hq, hthr]
    norm_num [round1, roundHalfEven]

theorem update_history_le (cfg : Config) (o : TickOracle) (g : GenState)
    (hg : g.incident_history.length ≤ 20) :
    (update cfg o g).incident_history.length ≤ 20 := by
  rw [update_history_proj, update_safety_hist_eq]
  split
  · exact truncate20_length_le _
  · exact hg

/-- C3: across any sequence of `update()` calls, the incident history
never exceeds 20 entries; each tick either leaves the history unchanged
or appends one incident and truncates to the last 20, so the evicted
entries are exactly the oldest ones (the result is a suffix of the
appended list of length `min (old + 1) 20`). -/
theorem incident_history_fifo (cfg : Config) (g : GenState)
    (hg : g.incident_history.length ≤ 20) :
    (∀ os : List TickOracle,
      (runTicks cfg os g).incident_history.length ≤ 20) ∧
    (∀ o : TickOracle,
      (update cfg o g).incident_history = g.incident_history ∨
      ∃ inc, (update cfg o g).incident_history =
        truncate20 (g.incident_history ++ [inc])) ∧
    (∀ (h : List IncidentReport) (inc : IncidentReport),
      List.IsSuffix (truncate20 (h ++ [inc])) (h ++ [inc]) ∧
      (truncate20 (h ++ [inc])).length = min (h.length + 1) 20) := by
  refine ⟨?_, ?_, ?_⟩
  · have main : ∀ (os : List TickOracle) (g' : GenState),
        g'.incident_history.length ≤ 20 →
        (runTicks cfg os g').incident_history.length ≤ 20 := by
      intro os
      induction os with
      | nil => intro g' h; exact h
      | cons o rest ih =>
          intro g' h
          rw [runTicks, List.foldl_cons]
          exact ih (update cfg o g') (update_history_le cfg o g' h)
    exact fun os => main os g hg
  · intro o
    rw [update_history_proj, update_safety_hist_eq]
    split
    · right
      exact ⟨_, rfl⟩
    · left
      rfl
  · intro h inc
    refine ⟨truncate20_suffix _, ?_⟩
    rw [truncate20_length, List.length_append]
    simp

/-- C4: immediately after any `update()`, every black slope is closed
whenever the (end-of-tick) avalanche risk exceeds 0.8, and every black or
red slope is closed whenever the (end-of-tick) wind speed exceeds 60: the
reopen step re-checks both closure conditions, so it cannot override a
forced closure whose trigger still holds. -/
theorem forced_closures_hold (cfg : Config) (o : TickOracle) (g : GenState) :
    ∀ s ∈ (update cfg o g).slopes,
      (s.difficulty = .black ∧
          (update cfg o g).safety.avalanche_risk_index > 4/5 →
        s.is_open = false) ∧
      ((s.difficulty = .black ∨ s.difficulty = .red) ∧
          (update cfg o g).weather.wind_speed > 60 →
        s.is_open = false) := by
  intro s hs
  rw [update_slopes_proj] at hs
  obtain ⟨i, s₀, _, rfl⟩ := updateSlopes_mem cfg o.slopes _ _ 0 g.slopes s hs
  constructor
  · rintro ⟨hb, hr⟩
    rw [update_slope_difficulty] at hb
    exact update_slope_closed_of_black_risk _ _ _ _ _ hb hr
  · rintro ⟨hd, hw⟩
    rw [update_slope_difficulty] at hd
    exact update_slope_closed_of_wind _ _ _ _ _ hd hw

/-- C10: `update()` never closes a green or blue slope: the two forced
closure rules fire only for black (risk) or black/red (wind) slopes, and
the reopen step only ever sets `is_open` to true, so an open green or
blue slope is still open after the tick. -/
theorem green_blue_stay_open (cfg : Config) (o : TickOracle) (g : GenState)
    (i : ℕ) (s : SlopeData) (hi : g.slopes.get? i = some s)
    (hd : s.difficulty = .green ∨ s.difficulty = .blue)
    (ho : s.is_open = true) :
    ∃ s', (update cfg o g).slopes.get? i = some s' ∧
      s'.difficulty = s.difficulty ∧ s'.is_open = true := by
  rw [update_slopes_proj, updateSlopes_get, hi]
  refine ⟨_, rfl, update_slope_difficulty _ _ _ _ _, ?_⟩
  exact update_slope_green_blue_open _ _ _ _ _ hd ho

/-- C5 counterexample: the claim that *every* entity of the data model
carries a timestamp is false for slopes — `SlopeData` in `models.py`
declares no `timestamp` field at all (and `_update_slopes` stamps
nothing), while the weather, lift and safety models do. -/
theorem slope_timestamp_field_missing :
    "timestamp" ∈ weatherDataFields ∧ "timestamp" ∈ liftDataFields ∧
    "timestamp" ∈ safetyDataFields ∧ "timestamp" ∉ slopeDataFields := by
  refine ⟨?_, ?_, ?_, ?_⟩ <;> simp [weatherDataFields, liftDataFields,
    safetyDataFields, slopeDataFields]

/-- C5 (amended): after every `update()` the weather record, every lift,
and the safety record carry a timestamp equal to the timestamp of the tick;
slopes carry no timestamp field, so the slope sub-step stamps nothing. -/
theorem entities_stamped_with_tick (cfg : Config) (o : TickOracle)
    (g : GenState) :
    (update cfg o g).weather.timestamp = o.now ∧
    (∀ l ∈ (update cfg o g).lifts, l.timestamp = o.now) ∧
    (update cfg o g).safety.timestamp = o.now ∧
    "timestamp" ∉ slopeDataFields := by
  refine ⟨rfl, ?_, rfl, by simp [slopeDataFields]⟩
  intro l hl
  rw [update_lifts_proj] at hl
  obtain ⟨i, l₀, _, rfl⟩ := updateLifts_mem cfg o.lifts o.now 0 g.lifts l hl
  exact update_lift_timestamp _ _ _ _

/-- C6: whenever an incident is generated, the candidate type pool is the
four baseline types, with `avalanche_warning` appended twice exactly when
the avalanche risk read at generation time exceeds 0.7 (6 entries, weight
2 of 6); at risk ≤ 0.7 the pool is exactly the four baseline types and
`avalanche_warning` cannot be drawn.  The drawn type is the uniform
`random.choice` pick from that pool. -/
theorem incident_pool_weighting (risk : ℚ) (slopes : List SlopeData)
    (lifts : List LiftData) (o : IncidentOracle) (now : ℕ) :
    (risk > 7/10 →
      incident_pool risk =
        [.minor_injury, .collision, .lost_person, .equipment_failure,
         .avalanche_warning, .avalanche_warning] ∧
      (incident_pool risk).length = 6 ∧
      (incident_pool risk).count .avalanche_warning = 2 ∧
      (incident_pool risk).count .minor_injury = 1 ∧
      (incident_pool risk).count .collision = 1 ∧
      (incident_pool risk).count .lost_person = 1 ∧
      (incident_pool risk).count .equipment_failure = 1) ∧
    (risk ≤ 7/10 →
      incident_pool risk =
        [.minor_injury, .collision, .lost_person, .equipment_failure] ∧
      IncidentType.avalanche_warning ∉ incident_pool risk) ∧
    (generate_incident risk slopes lifts o now).incident_type =
      choice (incident_pool risk) .minor_injury o.type_idx ∧
    (generate_incident risk slopes lifts o now).incident_type ∈
      incident_pool risk := by
  refine ⟨?_, ?_, rfl, ?_⟩
  · intro h
    have hp : incident_pool risk =
        [.minor_injury, .collision, .lost_person, .equipment_failure,
         .avalanche_warning, .avalanche_warning] := by
      unfold incident_pool
      rw [if_pos h]
      rfl
    rw [hp]
    refine ⟨rfl, rfl, ?_, ?_, ?_, ?_, ?_⟩ <;> decide
  · intro h
    have hp : incident_pool risk =
        [.minor_injury, .collision, .lost_person, .equipment_failure] := by
      unfold incident_pool
      rw [if_neg (by exact not_lt.mpr h)]
    rw [hp]
    exact ⟨rfl, by decide⟩
  · have hne : incident_pool risk ≠ [] := by
      unfold incident_pool
      split <;> simp
    exact choice_mem _ _ _ hne

/-- C7: in every weather update the visibility change is the drift, minus
a `2 * visibility_drift` penalty when the updated snow intensity exceeds
2, and independently minus a `1.5 * visibility_drift` penalty when the
updated wind speed exceeds 40 — both penalties apply together when both
conditions hold — and the result is clamped to [50, 10000]. -/
theorem visibility_penalties (cfg : Config) (o : WeatherOracle) (now : ℕ)
    (w : WeatherData) :
    ((update_weather cfg o now w).snow_intensity > 2 →
      (update_weather cfg o now w).wind_speed > 40 →
      (update_weather cfg o now w).visibility =
        clamp 50 10000 (w.visibility + (o.vis_delta
          - cfg.visibility_drift * 2 - cfg.visibility_drift * (3/2)))) ∧
    ((update_weather cfg o now w).snow_intensity > 2 →
      ¬((update_weather cfg o now w).wind_speed > 40) →
      (update_weather cfg o now w).visibility =
        clamp 50 10000 (w.visibility +
          (o.vis_delta - cfg.visibility_drift * 2))) ∧
    (¬((update_weather cfg o now w).snow_intensity > 2) →
      (update_weather cfg o now w).wind_speed > 40 →
      (update_weather cfg o now w).visibility =
        clamp 50 10000 (w.visibility +
          (o.vis_delta - cfg.visibility_drift * (3/2)))) ∧
    (¬((update_weather cfg o now w).snow_intensity > 2) →
      ¬((update_weather cfg o now w).wind_speed > 40) →
      (update_weather cfg o now w).visibility =
        clamp 50 10000 (w.visibility + o.vis_delta)) := by
  have hsnow : (update_weather cfg o now w).snow_intensity =
      clamp 0 5 (w.snow_intensity + o.snow_delta) := rfl
  have hwind : (update_weather cfg o now w).wind_speed =
      clamp 0 80 (w.wind_speed + o.wind_delta) := rfl
  refine ⟨?_, ?_, ?_, ?_⟩ <;> intro h1 h2 <;>
    rw [hsnow] at * <;> rw [hwind] at * <;>
    rw [update_weather_visibility_eq]
  · rw [if_pos h2, if_pos h1]
  · rw [if_neg h2, if_pos h1]
  · rw [if_pos h2, if_neg h1]
  · rw [if_neg h2, if_neg h1]

/-- C8: in every safety update the avalanche risk receives its
symmetric-uniform drift, plus a fixed `risk_drift * 0.5` increment when
the wind speed exceeds 50, plus an independent fixed `risk_drift * 0.5`
increment when the snow intensity exceeds 3 (additive — both can apply in
the same tick), and the result is clamped to [0, 1]. -/
theorem avalanche_risk_update (cfg : Config) (o : SafetyOracle) (now : ℕ)
    (w : WeatherData) (slopes : List SlopeData) (lifts : List LiftData)
    (s : SafetyData) (hist : List IncidentReport) :
    (update_safety cfg o now w slopes lifts s hist).1.avalanche_risk_index =
      clamp 0 1 (s.avalanche_risk_index + o.risk_delta
        + (if w.wind_speed > 50 then cfg.risk_drift * (1/2) else 0)
        + (if w.snow_intensity > 3 then cfg.risk_drift * (1/2) else 0)) :=
  update_safety_risk_eq cfg o now w slopes lifts s hist

/-- C9: the lift-by-id lookup of `main.py` returns a NotFound error
exactly when no lift carries the requested id (never a default value);
when ids are unique — as in the fixed lift catalog — the lift carrying
the requested id is the one returned. -/
theorem get_lift_not_found (lifts : List LiftData) (lid : String) :
    (get_lift lifts lid = .error .notFound ↔
      ∀ l ∈ lifts, l.lift_id ≠ lid) ∧
    (∀ l, get_lift lifts lid = .ok l → l ∈ lifts ∧ l.lift_id = lid) ∧
    ((lifts.map LiftData.lift_id).Nodup →
      ∀ l ∈ lifts, l.lift_id = lid → get_lift lifts lid = .ok l) := by
  refine ⟨?_, ?_, ?_⟩
  · constructor
    · intro h l hl
      unfold get_lift at h
      rcases hfind : lifts.find? (fun l => l.lift_id == lid) with _ | l'
      · have := List.find?_eq_none.mp hfind l hl
        simpa using this
      · rw [hfind] at h
        simp at h
    · intro h
      unfold get_lift
      rcases hfind : lifts.find? (fun l => l.lift_id == lid) with _ | l'
      · rw [hfind]
      · exfalso
        have hmem := List.mem_of_find?_eq_some hfind
        have hpred := List.find?_some hfind
        exact h l' hmem (by simpa using hpred)
  · intro l h
    unfold get_lift at h
    rcases hfind : lifts.find? (fun l => l.lift_id == lid) with _ | l'
    · rw [hfind] at h
      simp at h
    · rw [hfind] at h
      have hl : l' = l := by simpa using h
      subst hl
      have hmem := List.mem_of_find?_eq_some hfind
      have hpred := List.find?_some hfind
      exact ⟨hmem, by simpa using hpred⟩
  · intro hnd l hl hid
    induction lifts with
    | nil => simp at hl
    | cons x rest ih =>
        rcases List.mem_cons.mp hl with rfl | hmem
        · unfold get_lift
          rw [List.find?_cons_of_pos _ (by simpa using hid)]
        · have hx : x.lift_id ≠ lid := by
            intro hxe
            have hnodup := hnd
            rw [List.map_cons, List.nodup_cons] at hnodup
            exact hnodup.1 (hxe ▸ hid ▸ List.mem_map_of_mem LiftData.lift_id hmem)
          unfold get_lift
          rw [List.find?_cons_of_neg _ (by simpa using hx)]
          have hrest : (rest.map LiftData.lift_id).Nodup := by
            rw [List.map_cons, List.nodup_cons] at hnd
            exact hnd.2
          exact ih hrest hmem

theorem update_preserves_domains_witness :
    g0.InDomain ∧ (update cfg0 o0 g0).InDomain := by
  have h : g0.InDomain := by
    refine ⟨⟨?_, ?_, ?_, ?_, ?_, ?_, ?_, ?_⟩, ?_, ⟨?_, ?_⟩, ?_⟩ <;>
      norm_num [g0, w0, safety0, lift0, slope0, slopeG]
  exact ⟨h, update_preserves_domains cfg0 o0 g0 h⟩

theorem wait_time_recomputed_witness :
    update_lift cfg0 lo0 1 lift0 ∈ (update cfg0 o0 g0).lifts ∧
    (update_lift cfg0 lo0 1 lift0).status = .open_ ∧
    (update_lift cfg0 lo0 1 lift0).throughput_rate = 2400 ∧
    (update_lift cfg0 lo0 1 lift0).queue_length = 80 ∧
    (update_lift cfg0 lo0 1 lift0).wait_time_minutes = 2 := by
  have hmem : update_lift cfg0 lo0 1 lift0 ∈ (update cfg0 o0 g0).lifts :=
    List.mem_singleton.mpr rfl
  have hs : (update_lift cfg0 lo0 1 lift0).status = .open_ := by
    rw [update_lift]
    norm_num [lo0, cfg0, lift0]
  have hthr : (update_lift cfg0 lo0 1 lift0).throughput_rate = 2400 := rfl
  have hq : (update_lift cfg0 lo0 1 lift0).queue_length = 80 := by
    rw [update_lift_queue]
    norm_num [lift0, lo0]
  exact ⟨hmem, hs, hthr, hq,
    (wait_time_recomputed cfg0 o0 g0 (update_lift cfg0 lo0 1 lift0)
      hmem).2.2 ⟨hs, hthr, hq⟩⟩

theorem incident_history_fifo_witness :
    g0.incident_history.length ≤ 20 ∧
    (runTicks cfg0 [o0] g0).incident_history.length ≤ 20 := by
  have h : g0.incident_history.length ≤ 20 := by
    simp [g0]
  exact ⟨h, (incident_history_fifo cfg0 g0 h).1 [o0]⟩

theorem forced_closures_hold_witness :
    slope0' ∈ (update cfg0 o0 g0).slopes ∧
    slope0'.difficulty = .black ∧
    (update cfg0 o0 g0).safety.avalanche_risk_index > 4/5 ∧
    slope0'.is_open = false := by
  have hmem : slope0' ∈ (update cfg0 o0 g0).slopes := by
    rw [update_slopes_proj]
    exact List.mem_cons_self _ _
  have hb : slope0'.difficulty = .black := rfl
  have hr : (update cfg0 o0 g0).safety.avalanche_risk_index > 4/5 := by
    rw [update_safety_proj, update_safety_risk_eq,
      update_weather_wind, update_weather_snow]
    norm_num [g0, w0, o0, wo0, so0, cfg0, safety0, clamp, min_def, max_def]
  exact ⟨hmem, hb, hr,
    (forced_closures_hold cfg0 o0 g0 slope0' hmem).1 ⟨hb, hr⟩⟩

theorem entities_stamped_with_tick_witness :
    update_lift cfg0 lo0 1 lift0 ∈ (update cfg0 o0 g0).lifts ∧
    (update cfg0 o0 g0).weather.timestamp = 1 ∧
    (update_lift cfg0 lo0 1 lift0).timestamp = 1 ∧
    (update cfg0 o0 g0).safety.timestamp = 1 := by
  have hmem : update_lift cfg0 lo0 1 lift0 ∈ (update cfg0 o0 g0).lifts :=
    List.mem_singleton.mpr rfl
  have hall := entities_stamped_with_tick cfg0 o0 g0
  exact ⟨hmem, hall.1, hall.2.1 _ hmem, hall.2.2.1⟩

theorem incident_pool_weighting_witness :
    (3/4 : ℚ) > 7/10 ∧
    incident_pool (3/4) =
      [.minor_injury, .collision, .lost_person, .equipment_failure,
       .avalanche_warning, .avalanche_warning] ∧
    (incident_pool (3/4)).count .avalanche_warning = 2 := by
  have h : (3/4 : ℚ) > 7/10 := by norm_num
  have hm := (incident_pool_weighting (3/4) [] [] io0 0).1 h
  exact ⟨h, hm.1, hm.2.2.1⟩

theorem visibility_penalties_witness :
    (update_weather cfg0 wo0 1 w1).snow_intensity > 2 ∧
    (update_weather cfg0 wo0 1 w1).wind_speed > 40 ∧
    (update_weather cfg0 wo0 1 w1).visibility =
      clamp 50 10000 (w1.visibility + (wo0.vis_delta
        - cfg0.visibility_drift * 2 - cfg0.visibility_drift * (3/2))) := by
  have h1 : (update_weather cfg0 wo0 1 w1).snow_intensity > 2 := by
    rw [update_weather_snow]
    norm_num [w1, wo0, clamp, min_def, max_def]
  have h2 : (update_weather cfg0 wo0 1 w1).wind_speed > 40 := by
    rw [update_weather_wind]
    norm_num [w1, wo0, clamp, min_def, max_def]
  exact ⟨h1, h2, (visibility_penalties cfg0 wo0 1 w1).1 h1 h2⟩

theorem get_lift_not_found_witness :
    get_lift [lift0] "gondola-1" = .ok lift0 ∧
    get_lift [lift0] "missing-lift" = .error .notFound := by
  constructor
  · refine (get_lift_not_found [lift0] "gondola-1").2.2 ?_ lift0 ?_ rfl
    · simp [lift0]
    · simp
  · refine (get_lift_not_found [lift0] "missing-lift").1.mpr ?_
    intro l hl
    rw [List.mem_singleton] at hl
    subst hl
    simp [lift0]

theorem green_blue_stay_open_witness :
    g0.slopes.get? 1 = some slopeG ∧
    (slopeG.difficulty = .green ∨ slopeG.difficulty = .blue) ∧
    slopeG.is_open = true ∧
    (∃ s', (update cfg0 o0 g0).slopes.get? 1 = some s' ∧
      s'.difficulty = slopeG.difficulty ∧ s'.is_open = true) := by
  have h1 : g0.slopes.get? 1 = some slopeG := rfl
  have h2 : slopeG.difficulty = .green ∨ slopeG.difficulty = .blue :=
    Or.inl rfl
  have h3 : slopeG.is_open = true := rfl
  exact ⟨h1, h2, h3, green_blue_stay_open cfg0 o0 g0 1 slopeG h1 h2 h3⟩
